import Mathlib

/-!
# Verification of the HKDC custodial exchange ledger

A shallow embedding of the core ledger operations of the stablecoin-hkdc
repository: the data model (`models.py`), the data-access layer (`crud.py`)
and the request handlers (`main.py`) that move value — deposits, internal
transfers and withdrawals.  Monetary amounts are modelled as exact rationals;
the database session is modelled as an explicit record of lists, threaded
through each operation, with committed writes surviving a later error
response (as they do in the source, where each `crud` call commits on its
own).  The external blockchain gateway is modelled as an oracle parameter:
in the source `blockchain_service.transfer_hkdc` either returns a receipt or
raises some exception, and the handler catches every exception alike.
-/

namespace HKDC

/-- `models.User`: id, unique email, optional full name, optional unique
national-id number, and an activation status string (initially
"unverified"). -/
structure User where
  id : Nat
  email : String
  full_name : Option String
  identity_card_number : Option String
  status : String
deriving DecidableEq, Repr

/-- `models.Account`: one balance per user id. -/
structure Account where
  user_id : Nat
  balance : Rat
deriving DecidableEq, Repr

/-- `models.Transaction`: one balance-affecting (or attempted) event.
`completed_at_set` records whether `crud.create_transaction` stamped a
completion timestamp (it does iff the status is "completed"). -/
structure Transaction where
  initiator_user_id : Nat
  recipient_user_id : Option Nat
  recipient_web3_address : Option String
  bank_account_id : Option Nat
  type : String
  amount : Rat
  tx_hash : Option String
  status : String
  completed_at_set : Bool
deriving DecidableEq, Repr

/-- `models.WithdrawalWhitelist`: a global allow-list entry for on-chain
withdrawal destinations, with status "normal" or "frozen". -/
structure WhitelistEntry where
  id : Nat
  address : String
  label : String
  status : String
deriving DecidableEq, Repr

/-- The database state threaded through the operations. -/
structure DB where
  users : List User
  accounts : List Account
  transactions : List Transaction
  whitelist : List WhitelistEntry
deriving DecidableEq, Repr

/-- An HTTPException raised by a handler: status code and detail string. -/
structure Http where
  status_code : Nat
  detail : String
deriving DecidableEq, Repr

/-- `crud.get_user_by_email`: first user row with the given email. -/
def get_user_by_email (db : DB) (email : String) : Option User :=
  db.users.find? (fun u => u.email == email)

/-- `crud`-style lookup of a user by primary key (the
`db.query(models.User).filter(models.User.id == user_id).first()` pattern). -/
def get_user_by_id (db : DB) (user_id : Nat) : Option User :=
  db.users.find? (fun u => u.id == user_id)

/-- `crud.get_account_by_user_id`: first account row with the given user id. -/
def get_account_by_user_id (db : DB) (user_id : Nat) : Option Account :=
  db.accounts.find? (fun a => a.user_id == user_id)

/-- The in-place `account.balance += amount` of `crud.update_balance`,
applied to the first account row matching the user id. -/
def applyDelta (user_id : Nat) (amount : Rat) : List Account → List Account
  | [] => []
  | a :: rest =>
      if a.user_id == user_id then
        { a with balance := a.balance + amount } :: rest
      else
        a :: applyDelta user_id amount rest

/-- `crud.update_balance`: looks the account up and unconditionally adds the
(signed) amount; if no account exists it is a no-op returning `none`.
There is no non-negativity check in the source. -/
def update_balance (db : DB) (user_id : Nat) (amount : Rat) : DB × Option Account :=
  match get_account_by_user_id db user_id with
  | none => (db, none)
  | some a =>
      ({ db with accounts := applyDelta user_id amount db.accounts },
       some { a with balance := a.balance + amount })

/-- `crud.create_transaction`: appends one transaction row, stamping the
completion timestamp iff the status is "completed". -/
def create_transaction (db : DB) (initiator_user_id : Nat) (ty : String)
    (amount : Rat) (st : String) (recipient_user_id : Option Nat)
    (recipient_web3_address : Option String) (tx_hash : Option String)
    (bank_account_id : Option Nat) : DB × Transaction :=
  let tx : Transaction :=
    { initiator_user_id := initiator_user_id
      recipient_user_id := recipient_user_id
      recipient_web3_address := recipient_web3_address
      bank_account_id := bank_account_id
      type := ty
      amount := amount
      tx_hash := tx_hash
      status := st
      completed_at_set := st == "completed" }
  ({ db with transactions := db.transactions ++ [tx] }, tx)

/-- `schemas.KYCSumbit`: the KYC submission payload. -/
structure KYCSumbit where
  full_name : String
  identity_card_number : String
deriving DecidableEq, Repr

/-- The in-place mutation of `crud.submit_kyc_info` on the first user row
with the given id: set name and national id, set status to "active". -/
def setKycFields (user_id : Nat) (k : KYCSumbit) : List User → List User
  | [] => []
  | u :: rest =>
      if u.id == user_id then
        { u with
            full_name := some k.full_name
            identity_card_number := some k.identity_card_number
            status := "active" } :: rest
      else
        u :: setKycFields user_id k rest

/-- `crud.submit_kyc_info`: returns `none` when the user does not exist,
raises `ValueError` (modelled as `Except.error`) when the national id is
already bound to a different user, and otherwise persists the KYC fields and
activates the user. -/
def submit_kyc_info (db : DB) (user_id : Nat) (kyc_data : KYCSumbit) :
    DB × Except String (Option User) :=
  match get_user_by_id db user_id with
  | none => (db, Except.ok none)
  | some _ =>
      match db.users.find?
          (fun u => u.identity_card_number == some kyc_data.identity_card_number) with
      | some existing =>
          if existing.id ≠ user_id then
            (db, Except.error "Identity card number is already registered by another user.")
          else
            let db2 : DB := { db with users := setKycFields user_id kyc_data db.users }
            (db2, Except.ok (get_user_by_id db2 user_id))
      | none =>
          let db2 : DB := { db with users := setKycFields user_id kyc_data db.users }
          (db2, Except.ok (get_user_by_id db2 user_id))

/-- `crud.get_whitelist_address_by_address`: first whitelist row with the
given address. -/
def get_whitelist_address_by_address (db : DB) (address : String) :
    Option WhitelistEntry :=
  db.whitelist.find? (fun w => w.address == address)

/-! ## Request payloads (`schemas.py`) -/

/-- `schemas.DepositBankRequest`: a positive amount (positivity is enforced
by pydantic's `Field(gt=0)` before the handler runs). -/
structure DepositBankRequest where
  amount : Rat
deriving DecidableEq, Repr

/-- `schemas.TransferRequest`. -/
structure TransferRequest where
  recipient_email : String
  amount : Rat
deriving DecidableEq, Repr

/-- `schemas.WithdrawWeb3Request`. -/
structure WithdrawWeb3Request where
  amount : Rat
  recipient_web3_address : String
deriving DecidableEq, Repr

/-- The outcome of one call to `blockchain_service.transfer_hkdc`, the
external transfer gateway.  In the source the call either returns a receipt
carrying a transaction hash, or raises: a definite on-chain rejection and an
indeterminate outcome (e.g. `wait_for_transaction_receipt` timing out) both
surface as Python exceptions, distinguished here so that theorems can ask
whether the handler treats them differently. -/
inductive GatewayOutcome where
  | success (tx_hash : String)
  | rejected (msg : String)
  | indeterminate (msg : String)
deriving DecidableEq, Repr

/-! ## Request handlers (`main.py`)

Each handler returns the database state after all commits (commits survive a
later `HTTPException`, as in the source where every `crud` call commits on
its own) together with either an `Http` error or the handler's response. -/

/-- `main.submit_kyc` (POST `/users/me/kyc`): reject already-active users;
the simulated liveness check always passes; then delegate to
`crud.submit_kyc_info`, mapping `ValueError` to HTTP 400 and a missing user
to HTTP 404. -/
def submit_kyc (db : DB) (current_user : User) (kyc_data : KYCSumbit) :
    DB × Except Http User :=
  if current_user.status = "active" then
    (db, Except.error ⟨400, "User is already active."⟩)
  else
    match submit_kyc_info db current_user.id kyc_data with
    | (db2, Except.error e) => (db2, Except.error ⟨400, e⟩)
    | (db2, Except.ok none) => (db2, Except.error ⟨404, "User not found."⟩)
    | (db2, Except.ok (some u)) => (db2, Except.ok u)

/-- `main.confirm_alipay_deposit` (POST `/deposit/alipay/confirm`): requires
active status, then credits the balance and records a completed
`deposit_alipay` transaction, returning the new balance.  (When the user has
no account row the source's `updated_account.balance` raises after the
transaction row was already committed; modelled as an HTTP 500.) -/
def confirm_alipay_deposit (db : DB) (current_user : User)
    (request : DepositBankRequest) : DB × Except Http (String × Rat) :=
  if current_user.status ≠ "active" then
    (db, Except.error ⟨403, "User is not active."⟩)
  else
    let res := update_balance db current_user.id request.amount
    let db3 := (create_transaction res.1 current_user.id "deposit_alipay"
      request.amount "completed" none none none none).1
    match res.2 with
    | none => (db3, Except.error ⟨500, "AttributeError"⟩)
    | some updated_account =>
        (db3, Except.ok ("Alipay deposit successful and credited.",
          updated_account.balance))

/-- `main.confirm_web3_deposit` (POST `/deposit/web3/confirm`): credits the
balance and records a completed `deposit_web3` transaction.  The source
performs no status check on this path. -/
def confirm_web3_deposit (db : DB) (user : User) (req : DepositBankRequest) :
    DB × Except Http String :=
  let db2 := (update_balance db user.id req.amount).1
  let db3 := (create_transaction db2 user.id "deposit_web3" req.amount
    "completed" none none none none).1
  (db3, Except.ok "Web3 deposit confirmed")

/-- `main.internal_transfer` (POST `/transfer`): initiator must be active
and funded, the recipient must be a different, existing, active user; then
debit the initiator, credit the recipient and record one completed
`internal_transfer` transaction. -/
def internal_transfer (db : DB) (current_user : User)
    (request : TransferRequest) : DB × Except Http String :=
  if current_user.status ≠ "active" then
    (db, Except.error ⟨403, "Your account is not active. Please complete KYC."⟩)
  else
    match get_account_by_user_id db current_user.id with
    | none => (db, Except.error ⟨400, "Insufficient balance"⟩)
    | some sender_account =>
        if sender_account.balance < request.amount then
          (db, Except.error ⟨400, "Insufficient balance"⟩)
        else if request.recipient_email = current_user.email then
          (db, Except.error ⟨400, "Cannot transfer to yourself."⟩)
        else
          match get_user_by_email db request.recipient_email with
          | none =>
              (db, Except.error ⟨404, "Recipient account does not exist."⟩)
          | some recipient_user =>
              if recipient_user.status ≠ "active" then
                (db, Except.error
                  ⟨403, "Recipient account is at risk (not verified). Transfer aborted."⟩)
              else
                let db2 := (update_balance db current_user.id (-request.amount)).1
                let db3 := (update_balance db2 recipient_user.id request.amount).1
                let db4 := (create_transaction db3 current_user.id
                  "internal_transfer" request.amount "completed"
                  (some recipient_user.id) none none none).1
                (db4, Except.ok "Transfer successful")

/-- `main.withdraw_to_web3` (POST `/withdraw/web3`): the withdrawal
coordinator.  Read-only checks (active status, sufficient balance, address
whitelisted and not frozen) run before the gateway is invoked; on gateway
success the balance is debited and a completed transaction with the hash is
recorded; on any exception from the gateway — rejection and indeterminate
alike, caught by the source's single `except Exception` — a failed
transaction without a hash is recorded and an HTTP 500 carrying the
exception text is raised, with no balance change. -/
def withdraw_to_web3 (db : DB) (current_user : User)
    (request : WithdrawWeb3Request) (gateway : GatewayOutcome) :
    DB × Except Http (String × String) :=
  if current_user.status ≠ "active" then
    (db, Except.error ⟨403, "User is not active. KYC is required."⟩)
  else
    match get_account_by_user_id db current_user.id with
    | none => (db, Except.error ⟨400, "Insufficient balance."⟩)
    | some account =>
        if account.balance < request.amount then
          (db, Except.error ⟨400, "Insufficient balance."⟩)
        else
          match get_whitelist_address_by_address db
              request.recipient_web3_address with
          | none =>
              (db, Except.error ⟨403,
                "Withdrawal address is not in the exchange's whitelist. Transaction rejected."⟩)
          | some whitelisted_address =>
              if whitelisted_address.status = "frozen" then
                (db, Except.error ⟨403,
                  "This withdrawal address is currently frozen. Transaction rejected."⟩)
              else
                match gateway with
                | GatewayOutcome.success tx_hash =>
                    let db2 := (update_balance db current_user.id
                      (-request.amount)).1
                    let db3 := (create_transaction db2 current_user.id
                      "withdraw_web3" request.amount "completed" none
                      (some request.recipient_web3_address) (some tx_hash)
                      none).1
                    (db3, Except.ok ("Web3 withdrawal successful", tx_hash))
                | GatewayOutcome.rejected msg =>
                    let db2 := (create_transaction db current_user.id
                      "withdraw_web3" request.amount "failed" none
                      (some request.recipient_web3_address) none none).1
                    (db2, Except.error
                      ⟨500, "An unexpected error occurred: " ++ msg⟩)
                | GatewayOutcome.indeterminate msg =>
                    let db2 := (create_transaction db current_user.id
                      "withdraw_web3" request.amount "failed" none
                      (some request.recipient_web3_address) none none).1
                    (db2, Except.error
                      ⟨500, "An unexpected error occurred: " ++ msg⟩)

/-! ## Helper lemmas about the account store -/

theorem find?_applyDelta_self (uid : Nat) (amt : Rat) (l : List Account)
    (a : Account) (h : l.find? (fun x => x.user_id == uid) = some a) :
    (applyDelta uid amt l).find? (fun x => x.user_id == uid)
      = some { a with balance := a.balance + amt } := by
  induction l with
  | nil => simp at h
  | cons b rest ih =>
      by_cases hb : b.user_id = uid
      · rw [List.find?_cons_of_pos _ (by simpa using hb)] at h
        cases h
        simp [applyDelta, hb, List.find?_cons_of_pos]
      · rw [List.find?_cons_of_neg _ (by simpa using hb)] at h
        rw [applyDelta, if_neg (by simpa using hb),
          List.find?_cons_of_neg _ (by simpa using hb)]
        exact ih h

theorem find?_applyDelta_ne (uid vid : Nat) (amt : Rat) (l : List Account)
    (hne : vid ≠ uid) :
    (applyDelta uid amt l).find? (fun x => x.user_id == vid)
      = l.find? (fun x => x.user_id == vid) := by
  induction l with
  | nil => rfl
  | cons b rest ih =>
      by_cases hb : b.user_id = uid
      · have hbv : ¬ b.user_id = vid := by
          rw [hb]; exact fun h => hne h.symm
        rw [applyDelta, if_pos (by simpa using hb),
          List.find?_cons_of_neg _ (by simpa using hbv),
          List.find?_cons_of_neg _ (by simpa using hbv)]
      · rw [applyDelta, if_neg (by simpa using hb)]
        by_cases hbv : b.user_id = vid
        · rw [List.find?_cons_of_pos _ (by simpa using hbv),
            List.find?_cons_of_pos _ (by simpa using hbv)]
        · rw [List.find?_cons_of_neg _ (by simpa using hbv),
            List.find?_cons_of_neg _ (by simpa using hbv)]
          exact ih

theorem update_balance_found (db : DB) (uid : Nat) (amt : Rat) (a : Account)
    (h : get_account_by_user_id db uid = some a) :
    update_balance db uid amt
      = ({ db with accounts := applyDelta uid amt db.accounts },
         some { a with balance := a.balance + amt }) := by
  rw [update_balance, h]

theorem get_account_update_balance_self (db : DB) (uid : Nat) (amt : Rat)
    (a : Account) (h : get_account_by_user_id db uid = some a) :
    get_account_by_user_id (update_balance db uid amt).1 uid
      = some { a with balance := a.balance + amt } := by
  rw [update_balance_found db uid amt a h]
  exact find?_applyDelta_self uid amt db.accounts a h

theorem get_account_update_balance_ne (db : DB) (uid vid : Nat) (amt : Rat)
    (a : Account) (h : get_account_by_user_id db uid = some a)
    (hne : vid ≠ uid) :
    get_account_by_user_id (update_balance db uid amt).1 vid
      = get_account_by_user_id db vid := by
  rw [update_balance_found db uid amt a h]
  exact find?_applyDelta_ne uid vid amt db.accounts hne

/-! ## Helper lemma about the KYC field update -/

theorem find?_setKycFields_self (uid : Nat) (k : KYCSumbit) (l : List User)
    (u : User) (h : l.find? (fun x => x.id == uid) = some u) :
    (setKycFields uid k l).find? (fun x => x.id == uid)
      = some { u with
          full_name := some k.full_name
          identity_card_number := some k.identity_card_number
          status := "active" } := by
  induction l with
  | nil => simp at h
  | cons b rest ih =>
      by_cases hb : b.id = uid
      · rw [List.find?_cons_of_pos _ (by simpa using hb)] at h
        cases h
        simp [setKycFields, hb, List.find?_cons_of_pos]
      · rw [List.find?_cons_of_neg _ (by simpa using hb)] at h
        rw [setKycFields, if_neg (by simpa using hb),
          List.find?_cons_of_neg _ (by simpa using hb)]
        exact ih h

/-! ## Concrete fixtures used by witnesses and counterexamples -/

/-- An active, KYC-complete user. -/
def alice : User :=
  { id := 1, email := "alice@example.com", full_name := some "Alice A"
    identity_card_number := some "ID-0001", status := "active" }

/-- A second active user, the internal-transfer recipient. -/
def bob : User :=
  { id := 2, email := "bob@example.com", full_name := some "Bob B"
    identity_card_number := some "ID-0002", status := "active" }

/-- A freshly registered, unverified user. -/
def carol : User :=
  { id := 3, email := "carol@example.com", full_name := none
    identity_card_number := none, status := "unverified" }

/-- The demo database: alice holds 100, bob 5, carol 0; the whitelist holds
one normal and one frozen address; the transaction log is empty. -/
def demoDB : DB :=
  { users := [alice, bob, carol]
    accounts := [⟨1, 100⟩, ⟨2, 5⟩, ⟨3, 0⟩]
    transactions := []
    whitelist :=
      [⟨1, "0x1111111111111111111111111111111111111111", "partner wallet", "normal"⟩,
       ⟨2, "0x2222222222222222222222222222222222222222", "seized wallet", "frozen"⟩] }

/-- The normal whitelisted demo address. -/
def addr1 : String := "0x1111111111111111111111111111111111111111"

/-- The frozen demo address. -/
def addr2 : String := "0x2222222222222222222222222222222222222222"

/-! ## C1: successful web3 withdrawal -/

/-- C1: for every web3 withdrawal by an active user with sufficient balance
to a whitelisted normal-status address, if the gateway returns success with
a hash then the caller gets a success response, the user's balance is
decreased by exactly the requested amount, exactly one completed
`withdraw_web3` transaction with that amount and hash is appended, and for
every non-success gateway outcome the account store is untouched (the debit
happens only after external success, never before). -/
theorem withdraw_web3_success_spec (db : DB) (u : User)
    (req : WithdrawWeb3Request) (h : String) (acct : Account)
    (w : WhitelistEntry)
    (hactive : u.status = "active")
    (hacct : get_account_by_user_id db u.id = some acct)
    (hbal : req.amount ≤ acct.balance)
    (hw : get_whitelist_address_by_address db req.recipient_web3_address
            = some w)
    (hnormal : w.status = "normal") :
    (withdraw_to_web3 db u req (GatewayOutcome.success h)).2
        = Except.ok ("Web3 withdrawal successful", h) ∧
    get_account_by_user_id
        (withdraw_to_web3 db u req (GatewayOutcome.success h)).1 u.id
        = some { acct with balance := acct.balance - req.amount } ∧
    (withdraw_to_web3 db u req (GatewayOutcome.success h)).1.transactions
        = db.transactions ++
          [{ initiator_user_id := u.id, recipient_user_id := none,
             recipient_web3_address := some req.recipient_web3_address,
             bank_account_id := none, type := "withdraw_web3",
             amount := req.amount, tx_hash := some h, status := "completed",
             completed_at_set := true }] ∧
    (∀ g : GatewayOutcome, (∀ s, g ≠ GatewayOutcome.success s) →
        (withdraw_to_web3 db u req g).1.accounts = db.accounts) := by
  have hact : ¬ u.status ≠ "active" := by simp [hactive]
  have hnb : ¬ acct.balance < req.amount := not_lt.mpr hbal
  have hfr : ¬ w.status = "frozen" := by rw [hnormal]; decide
  refine ⟨?_, ?_, ?_, ?_⟩
  · simp only [withdraw_to_web3, hacct, hw]
    rw [if_neg hact, if_neg hnb, if_neg hfr]
  · simp only [withdraw_to_web3, hacct, hw]
    rw [if_neg hact, if_neg hnb, if_neg hfr]
    have h2 : get_account_by_user_id
        ((create_transaction (update_balance db u.id (-req.amount)).1 u.id
          "withdraw_web3" req.amount "completed" none
          (some req.recipient_web3_address) (some h) none).1,
          (Except.ok ("Web3 withdrawal successful", h) :
            Except Http (String × String))).1 u.id
        = get_account_by_user_id (update_balance db u.id (-req.amount)).1 u.id :=
      rfl
    rw [h2, get_account_update_balance_self db u.id (-req.amount) acct hacct,
      sub_eq_add_neg]
  · simp only [withdraw_to_web3, hacct, hw]
    rw [if_neg hact, if_neg hnb, if_neg hfr,
      update_balance_found db u.id (-req.amount) acct hacct]
    rfl
  · intro g hg
    cases g with
    | success s => exact absurd rfl (hg s)
    | rejected m =>
        simp only [withdraw_to_web3, hacct, hw]
        rw [if_neg hact, if_neg hnb, if_neg hfr]
        rfl
    | indeterminate m =>
        simp only [withdraw_to_web3, hacct, hw]
        rw [if_neg hact, if_neg hnb, if_neg hfr]
        rfl

/-- Witness for C1: alice (active, balance 100) withdraws 30 to the normal
whitelisted address and the gateway succeeds with hash "0xabc": the response
is success, her balance ends at 70 and exactly one completed transaction
with the hash is recorded. -/
theorem withdraw_web3_success_spec_witness :
    alice.status = "active" ∧ (30 : Rat) ≤ (100 : Rat) ∧
    (withdraw_to_web3 demoDB alice ⟨30, addr1⟩ (GatewayOutcome.success "0xabc")).2
        = Except.ok ("Web3 withdrawal successful", "0xabc") ∧
    get_account_by_user_id
        (withdraw_to_web3 demoDB alice ⟨30, addr1⟩
          (GatewayOutcome.success "0xabc")).1 alice.id
        = some ⟨1, 70⟩ ∧
    (withdraw_to_web3 demoDB alice ⟨30, addr1⟩
        (GatewayOutcome.success "0xabc")).1.transactions
        = [{ initiator_user_id := 1, recipient_user_id := none,
             recipient_web3_address := some addr1, bank_account_id := none,
             type := "withdraw_web3", amount := 30, tx_hash := some "0xabc",
             status := "completed", completed_at_set := true }] := by
  have H := withdraw_web3_success_spec demoDB alice ⟨30, addr1⟩ "0xabc"
    ⟨1, 100⟩ ⟨1, addr1, "partner wallet", "normal"⟩ rfl rfl (by norm_num)
    rfl rfl
  refine ⟨rfl, by norm_num, H.1, ?_, ?_⟩
  · rw [H.2.1]
    norm_num
  · rw [H.2.2.1]
    rfl

/-! ## C2: definite gateway rejection -/

/-- C2: for every web3 withdrawal that passes the active-status, balance and
whitelist checks, if the gateway definitively rejects the transfer then
exactly one failed `withdraw_web3` transaction without a hash is appended,
the rejection reason is surfaced to the caller, and the account store is
unchanged. -/
theorem withdraw_web3_rejected_spec (db : DB) (u : User)
    (req : WithdrawWeb3Request) (msg : String) (acct : Account)
    (w : WhitelistEntry)
    (hactive : u.status = "active")
    (hacct : get_account_by_user_id db u.id = some acct)
    (hbal : req.amount ≤ acct.balance)
    (hw : get_whitelist_address_by_address db req.recipient_web3_address
            = some w)
    (hfrozen : w.status ≠ "frozen") :
    (withdraw_to_web3 db u req (GatewayOutcome.rejected msg)).1.transactions
        = db.transactions ++
          [{ initiator_user_id := u.id, recipient_user_id := none,
             recipient_web3_address := some req.recipient_web3_address,
             bank_account_id := none, type := "withdraw_web3",
             amount := req.amount, tx_hash := none, status := "failed",
             completed_at_set := false }] ∧
    (withdraw_to_web3 db u req (GatewayOutcome.rejected msg)).2
        = Except.error ⟨500, "An unexpected error occurred: " ++ msg⟩ ∧
    (withdraw_to_web3 db u req (GatewayOutcome.rejected msg)).1.accounts
        = db.accounts := by
  have hact : ¬ u.status ≠ "active" := by simp [hactive]
  have hnb : ¬ acct.balance < req.amount := not_lt.mpr hbal
  refine ⟨?_, ?_, ?_⟩ <;>
    · simp only [withdraw_to_web3, hacct, hw]
      rw [if_neg hact, if_neg hnb, if_neg hfrozen]
      try rfl

/-- Witness for C2: alice withdraws 30 to the normal whitelisted address,
the gateway rejects with "insufficient gas": one failed transaction without
a hash is recorded, the reason reaches the caller, and the accounts are
untouched (alice still holds 100). -/
theorem withdraw_web3_rejected_spec_witness :
    alice.status = "active" ∧ (30 : Rat) ≤ (100 : Rat) ∧
    (withdraw_to_web3 demoDB alice ⟨30, addr1⟩
        (GatewayOutcome.rejected "insufficient gas")).1.transactions
        = [{ initiator_user_id := 1, recipient_user_id := none,
             recipient_web3_address := some addr1, bank_account_id := none,
             type := "withdraw_web3", amount := 30, tx_hash := none,
             status := "failed", completed_at_set := false }] ∧
    (withdraw_to_web3 demoDB alice ⟨30, addr1⟩
        (GatewayOutcome.rejected "insufficient gas")).2
        = Except.error
            ⟨500, "An unexpected error occurred: insufficient gas"⟩ ∧
    (withdraw_to_web3 demoDB alice ⟨30, addr1⟩
        (GatewayOutcome.rejected "insufficient gas")).1.accounts
        = [⟨1, 100⟩, ⟨2, 5⟩, ⟨3, 0⟩] := by
  have H := withdraw_web3_rejected_spec demoDB alice ⟨30, addr1⟩
    "insufficient gas" ⟨1, 100⟩ ⟨1, addr1, "partner wallet", "normal"⟩
    rfl rfl (by norm_num) rfl (by decide)
  refine ⟨rfl, by norm_num, ?_, ?_, ?_⟩
  · rw [H.1]; rfl
  · rw [H.2.1]; rfl
  · rw [H.2.2]; rfl

/-! ## C3: rejection vs indeterminate outcome -/

/-- Counterexample for C3: the handler does not distinguish a definite
rejection from an indeterminate outcome — on the same concrete state the two
gateway outcomes produce byte-for-byte the same database and the same error
response, so no distinct "status unknown, do not retry" condition exists. -/
theorem withdraw_web3_no_indeterminate_distinction :
    withdraw_to_web3 demoDB alice ⟨30, addr1⟩
        (GatewayOutcome.indeterminate "timeout")
      = withdraw_to_web3 demoDB alice ⟨30, addr1⟩
        (GatewayOutcome.rejected "timeout") := by
  have hact : ¬ alice.status ≠ "active" := by decide
  have hnb : ¬ (100 : Rat) < 30 := by norm_num
  have hacct : get_account_by_user_id demoDB alice.id = some ⟨1, 100⟩ := rfl
  have hw : get_whitelist_address_by_address demoDB addr1
      = some ⟨1, addr1, "partner wallet", "normal"⟩ := rfl
  simp only [withdraw_to_web3, hacct, hw]

/-- C3 amended: on an indeterminate gateway outcome the handler records a
failed `withdraw_web3` transaction without decrementing any balance, but it
surfaces exactly the same condition as for a definite rejection (the single
`except Exception` maps both to the generic HTTP 500): the whole result —
database and response — coincides with the rejection case with the same
exception text. -/
theorem withdraw_web3_indeterminate_spec (db : DB) (u : User)
    (req : WithdrawWeb3Request) (msg : String) (acct : Account)
    (w : WhitelistEntry)
    (hactive : u.status = "active")
    (hacct : get_account_by_user_id db u.id = some acct)
    (hbal : req.amount ≤ acct.balance)
    (hw : get_whitelist_address_by_address db req.recipient_web3_address
            = some w)
    (hfrozen : w.status ≠ "frozen") :
    withdraw_to_web3 db u req (GatewayOutcome.indeterminate msg)
        = withdraw_to_web3 db u req (GatewayOutcome.rejected msg) ∧
    (withdraw_to_web3 db u req (GatewayOutcome.indeterminate msg)).1.accounts
        = db.accounts ∧
    (withdraw_to_web3 db u req
        (GatewayOutcome.indeterminate msg)).1.transactions
        = db.transactions ++
          [{ initiator_user_id := u.id, recipient_user_id := none,
             recipient_web3_address := some req.recipient_web3_address,
             bank_account_id := none, type := "withdraw_web3",
             amount := req.amount, tx_hash := none, status := "failed",
             completed_at_set := false }] ∧
    (withdraw_to_web3 db u req (GatewayOutcome.indeterminate msg)).2
        = Except.error ⟨500, "An unexpected error occurred: " ++ msg⟩ := by
  have hact : ¬ u.status ≠ "active" := by simp [hactive]
  have hnb : ¬ acct.balance < req.amount := not_lt.mpr hbal
  refine ⟨?_, ?_, ?_, ?_⟩
  · simp only [withdraw_to_web3, hacct, hw]
  · simp only [withdraw_to_web3, hacct, hw]
    rw [if_neg hact, if_neg hnb, if_neg hfrozen]
    try rfl
  · simp only [withdraw_to_web3, hacct, hw]
    rw [if_neg hact, if_neg hnb, if_neg hfrozen]
    try rfl
  · simp only [withdraw_to_web3, hacct, hw]
    rw [if_neg hact, if_neg hnb, if_neg hfrozen]
    try rfl

/-- Witness for C3's amended statement: alice's withdrawal with an
indeterminate gateway outcome carrying text "timeout" leaves all balances in
place, records one failed transaction, and surfaces the same generic
HTTP 500 as a rejection would. -/
theorem withdraw_web3_indeterminate_spec_witness :
    alice.status = "active" ∧ (30 : Rat) ≤ (100 : Rat) ∧
    (withdraw_to_web3 demoDB alice ⟨30, addr1⟩
        (GatewayOutcome.indeterminate "timeout")).1.accounts
        = [⟨1, 100⟩, ⟨2, 5⟩, ⟨3, 0⟩] ∧
    (withdraw_to_web3 demoDB alice ⟨30, addr1⟩
        (GatewayOutcome.indeterminate "timeout")).1.transactions
        = [{ initiator_user_id := 1, recipient_user_id := none,
             recipient_web3_address := some addr1, bank_account_id := none,
             type := "withdraw_web3", amount := 30, tx_hash := none,
             status := "failed", completed_at_set := false }] ∧
    (withdraw_to_web3 demoDB alice ⟨30, addr1⟩
        (GatewayOutcome.indeterminate "timeout")).2
        = Except.error ⟨500, "An unexpected error occurred: timeout"⟩ := by
  have H := withdraw_web3_indeterminate_spec demoDB alice ⟨30, addr1⟩
    "timeout" ⟨1, 100⟩ ⟨1, addr1, "partner wallet", "normal"⟩
    rfl rfl (by norm_num) rfl (by decide)
  refine ⟨rfl, by norm_num, ?_, ?_, ?_⟩
  · rw [H.2.1]; rfl
  · rw [H.2.2.1]; rfl
  · rw [H.2.2.2]; rfl

/-! ## C6: whitelist guards run before the gateway -/

/-- C6: for an active, funded user, a destination absent from the whitelist
always fails with the "not whitelisted" reason and a present-but-frozen
destination always fails with the distinct "frozen" reason; in both cases
the result is independent of the gateway outcome (the gateway is never
consulted) and the database — balances included — is returned unchanged. -/
theorem withdraw_web3_whitelist_guard_spec (db : DB) (u : User)
    (req : WithdrawWeb3Request) (acct : Account)
    (hactive : u.status = "active")
    (hacct : get_account_by_user_id db u.id = some acct)
    (hbal : req.amount ≤ acct.balance) :
    (get_whitelist_address_by_address db req.recipient_web3_address = none →
      ∀ g : GatewayOutcome, withdraw_to_web3 db u req g
        = (db, Except.error ⟨403,
            "Withdrawal address is not in the exchange's whitelist. Transaction rejected."⟩)) ∧
    (∀ w : WhitelistEntry,
      get_whitelist_address_by_address db req.recipient_web3_address = some w →
      w.status = "frozen" →
      ∀ g : GatewayOutcome, withdraw_to_web3 db u req g
        = (db, Except.error ⟨403,
            "This withdrawal address is currently frozen. Transaction rejected."⟩)) ∧
    ("Withdrawal address is not in the exchange's whitelist. Transaction rejected."
      ≠ "This withdrawal address is currently frozen. Transaction rejected.") := by
  have hact : ¬ u.status ≠ "active" := by simp [hactive]
  have hnb : ¬ acct.balance < req.amount := not_lt.mpr hbal
  refine ⟨?_, ?_, by decide⟩
  · intro hnone g
    simp only [withdraw_to_web3, hacct, hnone]
    rw [if_neg hact, if_neg hnb]
  · intro w hw hfrozen g
    simp only [withdraw_to_web3, hacct, hw]
    rw [if_neg hact, if_neg hnb, if_pos hfrozen]

/-- Witness for C6: alice (active, balance 100) withdrawing 30 to an address
absent from the whitelist gets the "not whitelisted" rejection, and to the
frozen demo address gets the distinct "frozen" rejection; in both cases the
database is returned as-is. -/
theorem withdraw_web3_whitelist_guard_spec_witness :
    alice.status = "active" ∧ (30 : Rat) ≤ (100 : Rat) ∧
    withdraw_to_web3 demoDB alice
        ⟨30, "0x3333333333333333333333333333333333333333"⟩
        (GatewayOutcome.success "0xabc")
      = (demoDB, Except.error ⟨403,
          "Withdrawal address is not in the exchange's whitelist. Transaction rejected."⟩) ∧
    withdraw_to_web3 demoDB alice ⟨30, addr2⟩ (GatewayOutcome.success "0xabc")
      = (demoDB, Except.error ⟨403,
          "This withdrawal address is currently frozen. Transaction rejected."⟩) := by
  have H1 := withdraw_web3_whitelist_guard_spec demoDB alice
    ⟨30, "0x3333333333333333333333333333333333333333"⟩ ⟨1, 100⟩
    rfl rfl (by norm_num)
  have H2 := withdraw_web3_whitelist_guard_spec demoDB alice ⟨30, addr2⟩
    ⟨1, 100⟩ rfl rfl (by norm_num)
  refine ⟨rfl, by norm_num, ?_, ?_⟩
  · exact H1.1 rfl (GatewayOutcome.success "0xabc")
  · exact H2.2.1 ⟨2, addr2, "seized wallet", "frozen"⟩ rfl rfl
      (GatewayOutcome.success "0xabc")

/-! ## C4: the balance mutator has no non-negativity guard -/

/-- `update_balance` never touches the transaction log. -/
theorem update_balance_transactions (db : DB) (uid : Nat) (amt : Rat) :
    (update_balance db uid amt).1.transactions = db.transactions := by
  cases h : get_account_by_user_id db uid with
  | none => simp only [update_balance, h]
  | some a => simp only [update_balance, h]

/-- Counterexample for C4: `update_balance` does not reject a delta that
drives the stored balance negative — applying −5 to carol's account (balance
0) commits and returns an account with balance −5. -/
theorem update_balance_negative_counterexample :
    (update_balance demoDB 3 (-5)).2 = some ⟨3, -5⟩ ∧
    get_account_by_user_id (update_balance demoDB 3 (-5)).1 3
      = some ⟨3, -5⟩ := by
  have h : get_account_by_user_id demoDB 3 = some ⟨3, 0⟩ := rfl
  constructor
  · rw [update_balance_found demoDB 3 (-5) ⟨3, 0⟩ h]
    norm_num
  · rw [get_account_update_balance_self demoDB 3 (-5) ⟨3, 0⟩ h]
    norm_num

/-- C4 amended: `update_balance` applies any signed delta unconditionally —
the stored balance becomes old + delta even when that is negative, with no
rejection; the non-negativity of balances rests entirely on the callers'
pre-checks, not on the mutator itself (which leaves users and the
transaction log untouched). -/
theorem update_balance_applies_any_delta (db : DB) (uid : Nat) (amt : Rat)
    (a : Account) (h : get_account_by_user_id db uid = some a) :
    (update_balance db uid amt).2
        = some { a with balance := a.balance + amt } ∧
    get_account_by_user_id (update_balance db uid amt).1 uid
        = some { a with balance := a.balance + amt } ∧
    (update_balance db uid amt).1.users = db.users ∧
    (update_balance db uid amt).1.transactions = db.transactions := by
  refine ⟨?_, get_account_update_balance_self db uid amt a h, ?_, ?_⟩ <;>
    rw [update_balance_found db uid amt a h]

/-- Witness for C4's amended statement: applying −7 to bob's account
(balance 5) yields balance −2, unconditionally. -/
theorem update_balance_applies_any_delta_witness :
    get_account_by_user_id demoDB 2 = some ⟨2, 5⟩ ∧
    (update_balance demoDB 2 (-7)).2 = some ⟨2, -2⟩ ∧
    get_account_by_user_id (update_balance demoDB 2 (-7)).1 2
      = some ⟨2, -2⟩ := by
  have H := update_balance_applies_any_delta demoDB 2 (-7) ⟨2, 5⟩ rfl
  refine ⟨rfl, ?_, ?_⟩
  · rw [H.1]; norm_num
  · rw [H.2.1]; norm_num

/-! ## C5: internal transfer is all-or-nothing with debit = credit -/

/-- C5: every internal-transfer call either fails leaving the database —
both balances included — exactly as it was, or succeeds debiting the
initiator by exactly the transferred amount, crediting the (distinct)
recipient by exactly the same amount, and appending exactly one completed
`internal_transfer` log entry; no partially applied state is reachable. -/
theorem internal_transfer_atomic_spec (db : DB) (u : User)
    (req : TransferRequest) (sa ra : Account) (ru : User)
    (hsa : get_account_by_user_id db u.id = some sa)
    (hru : get_user_by_email db req.recipient_email = some ru)
    (hra : get_account_by_user_id db ru.id = some ra)
    (hne : ru.id ≠ u.id) :
    ((∃ e, (internal_transfer db u req).2 = Except.error e) →
        (internal_transfer db u req).1 = db) ∧
    ((∃ s, (internal_transfer db u req).2 = Except.ok s) →
        get_account_by_user_id (internal_transfer db u req).1 u.id
          = some { sa with balance := sa.balance - req.amount } ∧
        get_account_by_user_id (internal_transfer db u req).1 ru.id
          = some { ra with balance := ra.balance + req.amount } ∧
        (internal_transfer db u req).1.transactions
          = db.transactions ++
            [{ initiator_user_id := u.id, recipient_user_id := some ru.id,
               recipient_web3_address := none, bank_account_id := none,
               type := "internal_transfer", amount := req.amount,
               tx_hash := none, status := "completed",
               completed_at_set := true }]) := by
  by_cases h1 : u.status ≠ "active"
  · have hres : internal_transfer db u req
        = (db, Except.error
            ⟨403, "Your account is not active. Please complete KYC."⟩) := by
      simp only [internal_transfer]
      rw [if_pos h1]
    refine ⟨fun _ => by rw [hres], fun hok => ?_⟩
    rcases hok with ⟨s, hs⟩
    rw [hres] at hs
    exact absurd hs (by simp)
  · by_cases h2 : sa.balance < req.amount
    · have hres : internal_transfer db u req
          = (db, Except.error ⟨400, "Insufficient balance"⟩) := by
        simp only [internal_transfer, hsa]
        rw [if_neg h1, if_pos h2]
      refine ⟨fun _ => by rw [hres], fun hok => ?_⟩
      rcases hok with ⟨s, hs⟩
      rw [hres] at hs
      exact absurd hs (by simp)
    · by_cases h3 : req.recipient_email = u.email
      · have hres : internal_transfer db u req
            = (db, Except.error ⟨400, "Cannot transfer to yourself."⟩) := by
          simp only [internal_transfer, hsa]
          rw [if_neg h1, if_neg h2, if_pos h3]
        refine ⟨fun _ => by rw [hres], fun hok => ?_⟩
        rcases hok with ⟨s, hs⟩
        rw [hres] at hs
        exact absurd hs (by simp)
      · by_cases h4 : ru.status ≠ "active"
        · have hres : internal_transfer db u req
              = (db, Except.error ⟨403,
                  "Recipient account is at risk (not verified). Transfer aborted."⟩) := by
            simp only [internal_transfer, hsa, hru]
            rw [if_neg h1, if_neg h2, if_neg h3, if_pos h4]
          refine ⟨fun _ => by rw [hres], fun hok => ?_⟩
          rcases hok with ⟨s, hs⟩
          rw [hres] at hs
          exact absurd hs (by simp)
        · have hres : internal_transfer db u req
              = ((create_transaction
                    (update_balance
                      (update_balance db u.id (-req.amount)).1 ru.id
                      req.amount).1 u.id "internal_transfer" req.amount
                    "completed" (some ru.id) none none none).1,
                 Except.ok "Transfer successful") := by
            simp only [internal_transfer, hsa, hru]
            rw [if_neg h1, if_neg h2, if_neg h3, if_neg h4]
          have hd2 : get_account_by_user_id
              (update_balance db u.id (-req.amount)).1 ru.id = some ra :=
            (get_account_update_balance_ne db u.id ru.id (-req.amount) sa
              hsa hne).trans hra
          have hsender3 : get_account_by_user_id
              (update_balance (update_balance db u.id (-req.amount)).1
                ru.id req.amount).1 u.id
              = some { sa with balance := sa.balance + -req.amount } :=
            (get_account_update_balance_ne _ ru.id u.id req.amount ra hd2
              (Ne.symm hne)).trans
              (get_account_update_balance_self db u.id (-req.amount) sa hsa)
          have hrecip3 : get_account_by_user_id
              (update_balance (update_balance db u.id (-req.amount)).1
                ru.id req.amount).1 ru.id
              = some { ra with balance := ra.balance + req.amount } :=
            get_account_update_balance_self _ ru.id req.amount ra hd2
          refine ⟨fun herr => ?_, fun _ => ⟨?_, ?_, ?_⟩⟩
          · rcases herr with ⟨e, he⟩
            rw [hres] at he
            exact absurd he (by simp)
          · rw [hres]
            show get_account_by_user_id
              (update_balance (update_balance db u.id (-req.amount)).1
                ru.id req.amount).1 u.id = _
            rw [hsender3, sub_eq_add_neg]
          · rw [hres]
            show get_account_by_user_id
              (update_balance (update_balance db u.id (-req.amount)).1
                ru.id req.amount).1 ru.id = _
            rw [hrecip3]
          · rw [hres]
            show (update_balance (update_balance db u.id (-req.amount)).1
                ru.id req.amount).1.transactions ++ _ = _
            rw [update_balance_transactions, update_balance_transactions]
            rfl

/-- Witness for C5: alice (active, balance 100) transfers 30 to bob
(balance 5); the call succeeds, alice ends at 70, bob at 35, and one
completed `internal_transfer` entry is logged. -/
theorem internal_transfer_atomic_spec_witness :
    get_account_by_user_id demoDB alice.id = some ⟨1, 100⟩ ∧
    get_user_by_email demoDB "bob@example.com" = some bob ∧
    get_account_by_user_id demoDB bob.id = some ⟨2, 5⟩ ∧
    bob.id ≠ alice.id ∧
    (internal_transfer demoDB alice ⟨"bob@example.com", 30⟩).2
        = Except.ok "Transfer successful" ∧
    get_account_by_user_id
        (internal_transfer demoDB alice ⟨"bob@example.com", 30⟩).1 alice.id
        = some ⟨1, 70⟩ ∧
    get_account_by_user_id
        (internal_transfer demoDB alice ⟨"bob@example.com", 30⟩).1 bob.id
        = some ⟨2, 35⟩ := by
  have H := internal_transfer_atomic_spec demoDB alice
    ⟨"bob@example.com", 30⟩ ⟨1, 100⟩ ⟨2, 5⟩ bob rfl rfl rfl (by decide)
  have hok : (internal_transfer demoDB alice ⟨"bob@example.com", 30⟩).2
      = Except.ok "Transfer successful" := by rfl
  have H2 := H.2 ⟨_, hok⟩
  refine ⟨rfl, rfl, rfl, by decide, hok, ?_, ?_⟩
  · rw [H2.1]; norm_num
  · rw [H2.2.1]; norm_num

/-! ## C7: KYC submission -/

/-- C7: KYC submission by an already-active user fails with no mutation; a
national-id number already bound to a different user fails with the
duplicate-identity error and no mutation; otherwise it persists the full
name and national-id number and sets the status to "active" — so an active
user can never go through KYC again. -/
theorem submit_kyc_spec (db : DB) (u : User) (k : KYCSumbit)
    (hu : get_user_by_id db u.id = some u) :
    (u.status = "active" →
      submit_kyc db u k
        = (db, Except.error ⟨400, "User is already active."⟩)) ∧
    (u.status ≠ "active" →
      ∀ w, db.users.find?
          (fun x => x.identity_card_number == some k.identity_card_number)
          = some w →
      w.id ≠ u.id →
      submit_kyc db u k
        = (db, Except.error ⟨400,
            "Identity card number is already registered by another user."⟩)) ∧
    (u.status ≠ "active" →
      (∀ w, db.users.find?
          (fun x => x.identity_card_number == some k.identity_card_number)
          = some w → w.id = u.id) →
      submit_kyc db u k
        = ({ db with users := setKycFields u.id k db.users },
           Except.ok { u with
             full_name := some k.full_name
             identity_card_number := some k.identity_card_number
             status := "active" }) ∧
      get_user_by_id (submit_kyc db u k).1 u.id
        = some { u with
            full_name := some k.full_name
            identity_card_number := some k.identity_card_number
            status := "active" }) := by
  have hupd : get_user_by_id
      { db with users := setKycFields u.id k db.users } u.id
      = some { u with
          full_name := some k.full_name
          identity_card_number := some k.identity_card_number
          status := "active" } :=
    find?_setKycFields_self u.id k db.users u hu
  refine ⟨?_, ?_, ?_⟩
  · intro hact
    simp only [submit_kyc]
    rw [if_pos hact]
  · intro hne w hw hwid
    simp only [submit_kyc, submit_kyc_info, hu, hw]
    rw [if_neg hne, if_pos hwid]
  · intro hne hall
    cases hfind : db.users.find?
        (fun x => x.identity_card_number == some k.identity_card_number) with
    | none =>
        have hres : submit_kyc db u k
            = ({ db with users := setKycFields u.id k db.users },
               Except.ok { u with
                 full_name := some k.full_name
                 identity_card_number := some k.identity_card_number
                 status := "active" }) := by
          simp only [submit_kyc, submit_kyc_info, hu, hfind, hupd]
          rw [if_neg hne]
        exact ⟨hres, by rw [hres]; exact hupd⟩
    | some w =>
        have hwid : ¬ w.id ≠ u.id := by simp [hall w hfind]
        have hres : submit_kyc db u k
            = ({ db with users := setKycFields u.id k db.users },
               Except.ok { u with
                 full_name := some k.full_name
                 identity_card_number := some k.identity_card_number
                 status := "active" }) := by
          simp only [submit_kyc, submit_kyc_info, hu, hfind, hupd]
          rw [if_neg hne, if_neg hwid]
        exact ⟨hres, by rw [hres]; exact hupd⟩

/-- Witness for C7: carol (unverified) activates with a fresh national id;
alice (already active) is rejected outright; carol attempting to reuse
alice's national id "ID-0001" hits the duplicate-identity error with no
mutation. -/
theorem submit_kyc_spec_witness :
    get_user_by_id demoDB carol.id = some carol ∧
    carol.status ≠ "active" ∧
    submit_kyc demoDB carol ⟨"Carol C", "ID-0003"⟩
      = ({ demoDB with
            users := setKycFields carol.id ⟨"Carol C", "ID-0003"⟩ demoDB.users },
         Except.ok { carol with
           full_name := some "Carol C"
           identity_card_number := some "ID-0003"
           status := "active" }) ∧
    get_user_by_id
        (submit_kyc demoDB carol ⟨"Carol C", "ID-0003"⟩).1 carol.id
      = some { carol with
          full_name := some "Carol C"
          identity_card_number := some "ID-0003"
          status := "active" } ∧
    submit_kyc demoDB alice ⟨"Alice A", "ID-0009"⟩
      = (demoDB, Except.error ⟨400, "User is already active."⟩) ∧
    submit_kyc demoDB carol ⟨"Carol C", "ID-0001"⟩
      = (demoDB, Except.error ⟨400,
          "Identity card number is already registered by another user."⟩) := by
  have H1 := submit_kyc_spec demoDB carol ⟨"Carol C", "ID-0003"⟩ rfl
  have H2 := submit_kyc_spec demoDB alice ⟨"Alice A", "ID-0009"⟩ rfl
  have H3 := submit_kyc_spec demoDB carol ⟨"Carol C", "ID-0001"⟩ rfl
  have hall : ∀ w, demoDB.users.find?
      (fun x => x.identity_card_number
        == some (KYCSumbit.mk "Carol C" "ID-0003").identity_card_number)
      = some w → w.id = carol.id := by
    intro w hw
    have hw2 : (none : Option User) = some w := hw
    exact Option.noConfusion hw2
  have HS := H1.2.2 (by decide) hall
  refine ⟨rfl, by decide, HS.1, HS.2, H2.1 rfl, ?_⟩
  exact H3.2.1 (by decide) alice rfl (by decide)

/-! ## C8: only the Alipay deposit path checks activation -/

/-- Counterexample for C8: carol is not active, yet her web3 deposit
confirmation succeeds — her balance is credited and a completed
`deposit_web3` transaction is logged, so not every deposit operation
requires active status. -/
theorem confirm_web3_deposit_no_status_check :
    carol.status ≠ "active" ∧
    (confirm_web3_deposit demoDB carol ⟨10⟩).2
      = Except.ok "Web3 deposit confirmed" ∧
    get_account_by_user_id (confirm_web3_deposit demoDB carol ⟨10⟩).1 carol.id
      = some ⟨3, 10⟩ ∧
    (confirm_web3_deposit demoDB carol ⟨10⟩).1.transactions
      = [{ initiator_user_id := 3, recipient_user_id := none,
           recipient_web3_address := none, bank_account_id := none,
           type := "deposit_web3", amount := 10, tx_hash := none,
           status := "completed", completed_at_set := true }] := by
  refine ⟨by decide, rfl, ?_, ?_⟩
  · show get_account_by_user_id
        (update_balance demoDB carol.id (10 : Rat)).1 carol.id = some ⟨3, 10⟩
    rw [get_account_update_balance_self demoDB carol.id 10 ⟨3, 0⟩ rfl]
    norm_num
  · show (update_balance demoDB carol.id (10 : Rat)).1.transactions
        ++ [{ initiator_user_id := 3, recipient_user_id := none,
              recipient_web3_address := none, bank_account_id := none,
              type := "deposit_web3", amount := 10, tx_hash := none,
              status := "completed",
              completed_at_set := ("completed" == "completed") }] = _
    rw [update_balance_transactions]
    rfl

/-- C8 amended: the Alipay (fiat-simulated) deposit confirmation requires
active status — a non-active initiator is rejected with HTTP 403 and the
database is returned untouched — while the web3 deposit confirmation
performs no status check at all: it credits the balance and logs a
completed `deposit_web3` transaction for any authenticated user. -/
theorem deposit_activation_check_spec (db : DB) (u : User)
    (req : DepositBankRequest) (a : Account)
    (hne : u.status ≠ "active")
    (ha : get_account_by_user_id db u.id = some a) :
    confirm_alipay_deposit db u req
      = (db, Except.error ⟨403, "User is not active."⟩) ∧
    (confirm_web3_deposit db u req).2
      = Except.ok "Web3 deposit confirmed" ∧
    get_account_by_user_id (confirm_web3_deposit db u req).1 u.id
      = some { a with balance := a.balance + req.amount } ∧
    (confirm_web3_deposit db u req).1.transactions
      = db.transactions ++
        [{ initiator_user_id := u.id, recipient_user_id := none,
           recipient_web3_address := none, bank_account_id := none,
           type := "deposit_web3", amount := req.amount, tx_hash := none,
           status := "completed", completed_at_set := true }] := by
  refine ⟨?_, rfl, ?_, ?_⟩
  · simp only [confirm_alipay_deposit]
    rw [if_pos hne]
  · show get_account_by_user_id
        (update_balance db u.id req.amount).1 u.id = _
    exact get_account_update_balance_self db u.id req.amount a ha
  · show (update_balance db u.id req.amount).1.transactions
        ++ [{ initiator_user_id := u.id, recipient_user_id := none,
              recipient_web3_address := none, bank_account_id := none,
              type := "deposit_web3", amount := req.amount, tx_hash := none,
              status := "completed",
              completed_at_set := ("completed" == "completed") }] = _
    rw [update_balance_transactions]
    rfl

/-- Witness for C8's amended statement: carol (unverified, balance 0) is
rejected on the Alipay path with no change, yet the web3 path credits her
12 and logs a completed transaction. -/
theorem deposit_activation_check_spec_witness :
    carol.status ≠ "active" ∧
    get_account_by_user_id demoDB carol.id = some ⟨3, 0⟩ ∧
    confirm_alipay_deposit demoDB carol ⟨12⟩
      = (demoDB, Except.error ⟨403, "User is not active."⟩) ∧
    (confirm_web3_deposit demoDB carol ⟨12⟩).2
      = Except.ok "Web3 deposit confirmed" ∧
    get_account_by_user_id (confirm_web3_deposit demoDB carol ⟨12⟩).1 carol.id
      = some ⟨3, 12⟩ := by
  have H := deposit_activation_check_spec demoDB carol ⟨12⟩ ⟨3, 0⟩
    (by decide) rfl
  refine ⟨by decide, rfl, H.1, H.2.1, ?_⟩
  rw [H.2.2.1]
  norm_num

/-! ## C10: recipient-side failures of the internal transfer -/

/-- C10: even with an active, funded initiator, the internal transfer fails
with no mutation when the recipient email is the initiator's own, when no
user has the recipient email, or when the recipient is not active. -/
theorem internal_transfer_recipient_checks_spec (db : DB) (u : User)
    (req : TransferRequest) (sa : Account)
    (hactive : u.status = "active")
    (hsa : get_account_by_user_id db u.id = some sa)
    (hbal : req.amount ≤ sa.balance) :
    (req.recipient_email = u.email →
      internal_transfer db u req
        = (db, Except.error ⟨400, "Cannot transfer to yourself."⟩)) ∧
    (req.recipient_email ≠ u.email →
      get_user_by_email db req.recipient_email = none →
      internal_transfer db u req
        = (db, Except.error ⟨404, "Recipient account does not exist."⟩)) ∧
    (∀ ru : User, req.recipient_email ≠ u.email →
      get_user_by_email db req.recipient_email = some ru →
      ru.status ≠ "active" →
      internal_transfer db u req
        = (db, Except.error ⟨403,
            "Recipient account is at risk (not verified). Transfer aborted."⟩)) := by
  have hact : ¬ u.status ≠ "active" := by simp [hactive]
  have hnb : ¬ sa.balance < req.amount := not_lt.mpr hbal
  refine ⟨?_, ?_, ?_⟩
  · intro h3
    simp only [internal_transfer, hsa]
    rw [if_neg hact, if_neg hnb, if_pos h3]
  · intro h3 hnone
    simp only [internal_transfer, hsa, hnone]
    rw [if_neg hact, if_neg hnb, if_neg h3]
  · intro ru h3 hru h4
    simp only [internal_transfer, hsa, hru]
    rw [if_neg hact, if_neg hnb, if_neg h3, if_pos h4]

/-- Witness for C10: alice (active, balance 100) is rejected with no
mutation when sending 30 to her own email, to an email with no user, and to
the unverified carol. -/
theorem internal_transfer_recipient_checks_spec_witness :
    alice.status = "active" ∧ (30 : Rat) ≤ (100 : Rat) ∧
    internal_transfer demoDB alice ⟨"alice@example.com", 30⟩
      = (demoDB, Except.error ⟨400, "Cannot transfer to yourself."⟩) ∧
    internal_transfer demoDB alice ⟨"nobody@example.com", 30⟩
      = (demoDB, Except.error ⟨404, "Recipient account does not exist."⟩) ∧
    internal_transfer demoDB alice ⟨"carol@example.com", 30⟩
      = (demoDB, Except.error ⟨403,
          "Recipient account is at risk (not verified). Transfer aborted."⟩) := by
  have H1 := internal_transfer_recipient_checks_spec demoDB alice
    ⟨"alice@example.com", 30⟩ ⟨1, 100⟩ rfl rfl (by norm_num)
  have H2 := internal_transfer_recipient_checks_spec demoDB alice
    ⟨"nobody@example.com", 30⟩ ⟨1, 100⟩ rfl rfl (by norm_num)
  have H3 := internal_transfer_recipient_checks_spec demoDB alice
    ⟨"carol@example.com", 30⟩ ⟨1, 100⟩ rfl rfl (by norm_num)
  exact ⟨rfl, by norm_num, H1.1 rfl, H2.2.1 (by decide) rfl,
    H3.2.2 carol (by decide) rfl (by decide)⟩

end HKDC
